import Mathlib

/-!
Shallow embedding of the product-catalog router of the fastapi_exam
online-store backend (`app/routers/products.py`), together with the
interface-level query validation that FastAPI performs before the handler
runs.  The relational store is modelled as in-memory lists of rows; each
handler is a pure function from the store (and request data) to the
resulting store and a typed outcome.  Prices and identifiers are modelled
as integers; the SQL comparison of a column with NULL (which arises in the
source's `min_price` filter when `category_id` is absent) is modelled as an
unsatisfiable predicate, matching SQL three-valued logic where a WHERE
clause keeps only rows on which the condition is TRUE.
-/

namespace FastapiExam

/-- A row of the `categories` table (`app.models.categories.Category`):
identity, name and soft-delete flag. -/
structure Category where
  id : Int
  name : String
  is_active : Bool
deriving DecidableEq, Repr

/-- A row of the `products` table (`app.models.products.Product`). -/
structure Product where
  id : Int
  name : String
  description : String
  price : Int
  stock : Int
  category_id : Int
  seller_id : Int
  is_active : Bool
deriving DecidableEq, Repr

/-- The relational store reached through the session: the two tables the
products router touches. -/
structure Store where
  products : List Product
  categories : List Category
deriving DecidableEq, Repr

/-- The four business error kinds of the router, each raised as an
HTTPException in the source. -/
inductive Err where
  | InvalidRange
  | InvalidCategory
  | ProductNotFound
  | CategoryNotFound
  | Forbidden
deriving DecidableEq, Repr

/-- HTTP status code attached to each error kind in the source. -/
def Err.statusCode : Err → Nat
  | .InvalidRange => 400
  | .InvalidCategory => 400
  | .ProductNotFound => 404
  | .CategoryNotFound => 404
  | .Forbidden => 403

/-- Modelled from the spec: the `ProductCreate` request schema
(`app/schemas.py` is not under `src/`).  Per the data model of §3 and the
Create/Update contracts of §4.3 the payload carries name, description,
price, stock and the referenced `category_id` (the source reads
`product.category_id` from it at `create_product`), while `seller_id` and
`is_active` are supplied by the handler, not the payload. -/
structure ProductCreate where
  name : String
  description : String
  price : Int
  stock : Int
  category_id : Int
deriving DecidableEq, Repr

/-- Validated query parameters of `get_all_products` as they reach the
handler body, after FastAPI applied defaults (`page = 1`,
`page_size = 20`) and `ge`/`le` checks. -/
structure ListQueryParams where
  page : Int := 1
  page_size : Int := 20
  category_id : Option Int := none
  min_price : Option Int := none
  max_price : Option Int := none
  in_stock : Option Bool := none
  seller_id : Option Int := none
deriving DecidableEq, Repr

/-- The `ProductList` response of `get_all_products`. -/
structure ProductList where
  items : List Product
  total : Nat
  page : Int
  page_size : Int
deriving DecidableEq, Repr

/-- The raw query string of a List request: every parameter optional,
before defaults and interface validation. -/
structure RawListQuery where
  page : Option Int := none
  page_size : Option Int := none
  category_id : Option Int := none
  min_price : Option Int := none
  max_price : Option Int := none
  in_stock : Option Bool := none
  seller_id : Option Int := none
deriving DecidableEq, Repr

/-- FastAPI `Query(..., ge := lo)` check on an optional parameter: a
supplied value must be at least `lo`; an absent one passes. -/
def geOk (v : Option Int) (lo : Int) : Bool :=
  match v with
  | none => true
  | some x => decide (lo ≤ x)

/-- FastAPI `Query(..., le := hi)` check on an optional parameter. -/
def leOk (v : Option Int) (hi : Int) : Bool :=
  match v with
  | none => true
  | some x => decide (x ≤ hi)

/-- The interface layer of `get_all_products` (source lines 20 to 26):
FastAPI validates supplied values against the declared bounds
(`page ≥ 1`, `1 ≤ page_size ≤ 100`, `min_price ≥ 0`, `max_price ≥ 0`),
rejecting the request before the handler runs on violation, and otherwise
fills in the declared defaults `page = 1`, `page_size = 20`. -/
def parseListQuery (r : RawListQuery) : Option ListQueryParams :=
  if geOk r.page 1 && (geOk r.page_size 1 && leOk r.page_size 100) &&
      geOk r.min_price 0 && geOk r.max_price 0 then
    some { page := r.page.getD 1, page_size := r.page_size.getD 20,
           category_id := r.category_id, min_price := r.min_price,
           max_price := r.max_price, in_stock := r.in_stock,
           seller_id := r.seller_id }
  else
    none

/-- The filter predicate built by `get_all_products` (source lines 35 to
46), exactly as the source writes it: always `is_active`; the `min_price`
branch compares `price` against `category_id` (source line 40,
`ProductModel.price >= category_id`), so when `category_id` is absent the
generated SQL compares against NULL and holds of no row, and when it is
present the bound used is the category id, not `min_price`. -/
def productFilter (q : ListQueryParams) (p : Product) : Bool :=
  p.is_active == true &&
  (match q.category_id with
   | none => true
   | some c => p.category_id == c) &&
  (match q.min_price with
   | none => true
   | some _ =>
     match q.category_id with
     | none => false
     | some c => decide (c ≤ p.price)) &&
  (match q.max_price with
   | none => true
   | some m => decide (p.price ≤ m)) &&
  (match q.in_stock with
   | none => true
   | some b => if b then decide (0 < p.stock) else p.stock == 0) &&
  (match q.seller_id with
   | none => true
   | some s => p.seller_id == s)

/-- Ordering of rows used by `ORDER BY ProductModel.id`. -/
def idLE (a b : Product) : Prop :=
  a.id ≤ b.id

instance : DecidableRel idLE :=
  fun a b => Int.decLe a.id b.id

instance : IsTrans Product idLE :=
  ⟨fun _ _ _ h1 h2 => le_trans h1 h2⟩

instance : IsTotal Product idLE :=
  ⟨fun a b => le_total a.id b.id⟩

/-- `ORDER BY ProductModel.id` on a result set: the rows sorted by
ascending id. -/
def sortById (l : List Product) : List Product :=
  l.insertionSort idLE

/-- Does `min_price > max_price` with both bounds supplied (source line
29)? -/
def minGtMax (q : ListQueryParams) : Bool :=
  match q.min_price, q.max_price with
  | some mn, some mx => decide (mx < mn)
  | _, _ => false

/-- `GET /products/` (`get_all_products`, source lines 18 to 67): reject
inverted price bounds before any query; otherwise count the rows matching
the filters, then select the matching rows ordered by id with
`OFFSET (page-1)*page_size LIMIT page_size`. -/
def get_all_products (db : Store) (q : ListQueryParams) :
    Except Err ProductList :=
  if minGtMax q then
    Except.error Err.InvalidRange
  else
    let matching := db.products.filter (productFilter q)
    Except.ok
      { items := ((sortById matching).drop
            ((q.page - 1) * q.page_size).toNat).take q.page_size.toNat,
        total := matching.length,
        page := q.page,
        page_size := q.page_size }

/-- `SELECT ... WHERE Product.id == pid AND Product.is_active` followed by
`.first()`. -/
def find_active_product (db : Store) (pid : Int) : Option Product :=
  db.products.find? (fun p => p.id == pid && p.is_active)

/-- `SELECT ... WHERE Category.id == cid AND Category.is_active` followed
by `.first()`. -/
def find_active_category (db : Store) (cid : Int) : Option Category :=
  db.categories.find? (fun c => c.id == cid && c.is_active)

/-- The `ProductModel` row built by `create_product`:
`ProductModel(**product.model_dump(), seller_id=current_user.id)`.
Modelled from the spec: the fresh primary key `nid` and the `is_active`
column default of true come from `app/models/products.py`, which is not
under `src/`; §4.3 states the created product is owned by the seller with
`is_active` defaulted true. -/
def newProductFrom (nid : Int) (body : ProductCreate) (sellerId : Int) :
    Product :=
  { id := nid, name := body.name, description := body.description,
    price := body.price, stock := body.stock,
    category_id := body.category_id, seller_id := sellerId,
    is_active := true }

/-- `POST /products/` (`create_product`, source lines 70 to 84): look up
the payload's category among active categories; if found, persist the new
row and return it; otherwise raise 400 with no write issued.  The first
component is the store after the call. -/
def create_product (db : Store) (nid : Int) (body : ProductCreate)
    (sellerId : Int) : Store × Except Err Product :=
  match find_active_category db body.category_id with
  | some _ =>
    ({ db with products := db.products ++ [newProductFrom nid body sellerId] },
     Except.ok (newProductFrom nid body sellerId))
  | none => (db, Except.error Err.InvalidCategory)

/-- `GET /products/{product_id}` (`get_product`, source lines 101 to 114):
fetch the active product, 404 if absent; then fetch its active category,
404 if absent; otherwise return the product. -/
def get_product (db : Store) (pid : Int) : Except Err Product :=
  match find_active_product db pid with
  | none => Except.error Err.ProductNotFound
  | some product =>
    match find_active_category db product.category_id with
    | none => Except.error Err.CategoryNotFound
    | some _ => Except.ok product

/-- The effect on one row of
`update(ProductModel).values(**body_product.model_dump())`: the payload
fields overwrite the row; `id`, `seller_id` and `is_active` are not in the
payload and keep their values. -/
def applyUpdate (body : ProductCreate) (p : Product) : Product :=
  { p with name := body.name, description := body.description,
           price := body.price, stock := body.stock,
           category_id := body.category_id }

/-- `PUT /products/{product_id}` (`update_product`, source lines 117 to
153): fetch the active product (404), check ownership (403), check the
product's CURRENT category is active (400) - the payload's category is not
checked - then issue `UPDATE ... WHERE id == product_id` with the payload
fields and return the refreshed row. -/
def update_product (db : Store) (pid : Int) (body : ProductCreate)
    (userId : Int) : Store × Except Err Product :=
  match find_active_product db pid with
  | none => (db, Except.error Err.ProductNotFound)
  | some product =>
    if product.seller_id != userId then
      (db, Except.error Err.Forbidden)
    else
      match find_active_category db product.category_id with
      | none => (db, Except.error Err.InvalidCategory)
      | some _ =>
        ({ db with products := (db.products.map
             (fun r => if r.id == pid then applyUpdate body r else r)) },
         Except.ok (applyUpdate body product))

/-- `DELETE /products/{product_id}` (`delete_product`, source lines 156 to
179): fetch the active product (404), check ownership (403), then issue
`UPDATE ... WHERE id == product_id SET is_active = False` and return the
refreshed row. -/
def delete_product (db : Store) (pid : Int) (userId : Int) :
    Store × Except Err Product :=
  match find_active_product db pid with
  | none => (db, Except.error Err.ProductNotFound)
  | some product =>
    if product.seller_id != userId then
      (db, Except.error Err.Forbidden)
    else
      ({ db with products := (db.products.map
           (fun r => if r.id == pid then { r with is_active := false }
                     else r)) },
       Except.ok { product with is_active := false })

/-- Is some category with this id active in this list of rows? -/
def categoryActive (cats : List Category) (cid : Int) : Bool :=
  cats.any (fun c => c.id == cid && c.is_active)

/-- One product row satisfies the invariant: either it is inactive, or its
category is active. -/
def prodOK (cats : List Category) (p : Product) : Bool :=
  !p.is_active || categoryActive cats p.category_id

/-- The cross-entity invariant of §3: every active product references an
active category. -/
def activeRefsActive (db : Store) : Bool :=
  db.products.all (prodOK db.categories)

/-! ### Shared lemmas about the embedded operations -/

theorem mem_sortById {a : Product} {l : List Product} :
    a ∈ sortById l ↔ a ∈ l :=
  List.mem_insertionSort idLE

theorem sortById_pairwise (l : List Product) :
    (sortById l).Pairwise idLE :=
  List.sorted_insertionSort idLE l

theorem productFilter_is_active {q : ListQueryParams} {p : Product}
    (h : productFilter q p = true) : p.is_active = true := by
  unfold productFilter at h
  simp only [Bool.and_eq_true, beq_iff_eq] at h
  exact h.1.1.1.1.1

/-! ### Claims -/

/-- Claim C4: a List request supplying both price bounds with
min_price > max_price fails with InvalidRange; the result is the same for
every store, which is the formal counterpart of the failure happening
before any query is issued against the store. -/
theorem C4_invalid_range (db : Store) (q : ListQueryParams) (mn mx : Int)
    (hmn : q.min_price = some mn) (hmx : q.max_price = some mx)
    (hlt : mx < mn) :
    get_all_products db q = Except.error Err.InvalidRange := by
  have hm : minGtMax q = true := by
    unfold minGtMax
    rw [hmn, hmx]
    simpa using hlt
  unfold get_all_products
  rw [hm]
  rfl

theorem C4_invalid_range_witness :
    get_all_products { products := [], categories := [] }
      { min_price := some 10, max_price := some 5 } =
    Except.error Err.InvalidRange :=
  C4_invalid_range { products := [], categories := [] }
    { min_price := some 10, max_price := some 5 } 10 5 rfl rfl (by decide)

/-- Claim C5: the Update checks fire in order - 404 for a missing or
inactive product, then 403 for an ownership mismatch, then 400 for a
missing or inactive current category - and each failing call returns the
store unchanged (first component `db`), so no mutating statement has been
issued. -/
theorem C5_update_check_order (db : Store) (pid : Int) (body : ProductCreate)
    (u : Int) :
    (find_active_product db pid = none →
      update_product db pid body u = (db, Except.error Err.ProductNotFound)) ∧
    (∀ p, find_active_product db pid = some p → p.seller_id ≠ u →
      update_product db pid body u = (db, Except.error Err.Forbidden)) ∧
    (∀ p, find_active_product db pid = some p → p.seller_id = u →
      find_active_category db p.category_id = none →
      update_product db pid body u =
        (db, Except.error Err.InvalidCategory)) := by
  refine ⟨?_, ?_, ?_⟩
  · intro hfp
    unfold update_product
    rw [hfp]
  · intro p hfp hne
    unfold update_product
    rw [hfp]
    simp [hne]
  · intro p hfp howner hfc
    unfold update_product
    rw [hfp]
    simp [howner, hfc]

theorem C5_update_check_order_witness :
    update_product
      { products := [{ id := 1, name := "p", description := "", price := 4,
                       stock := 2, category_id := 1, seller_id := 7,
                       is_active := true }],
        categories := [{ id := 1, name := "c", is_active := true }] }
      1
      { name := "q", description := "", price := 5, stock := 2,
        category_id := 1 }
      8 =
    ({ products := [{ id := 1, name := "p", description := "", price := 4,
                      stock := 2, category_id := 1, seller_id := 7,
                      is_active := true }],
       categories := [{ id := 1, name := "c", is_active := true }] },
     Except.error Err.Forbidden) := by
  have h := C5_update_check_order
    { products := [{ id := 1, name := "p", description := "", price := 4,
                     stock := 2, category_id := 1, seller_id := 7,
                     is_active := true }],
      categories := [{ id := 1, name := "c", is_active := true }] }
    1
    { name := "q", description := "", price := 5, stock := 2,
      category_id := 1 }
    8
  exact h.2.1
    { id := 1, name := "p", description := "", price := 4, stock := 2,
      category_id := 1, seller_id := 7, is_active := true }
    (by decide) (by decide)

/-- Claim C6: Get fails 404 when no active product carries the id, fails
404 (category) when the product exists but its category is missing or
inactive, and otherwise returns the product. -/
theorem C6_get_product_cases (db : Store) (pid : Int) :
    (find_active_product db pid = none →
      get_product db pid = Except.error Err.ProductNotFound) ∧
    (∀ p, find_active_product db pid = some p →
      find_active_category db p.category_id = none →
      get_product db pid = Except.error Err.CategoryNotFound) ∧
    (∀ p c, find_active_product db pid = some p →
      find_active_category db p.category_id = some c →
      get_product db pid = Except.ok p) := by
  refine ⟨?_, ?_, ?_⟩
  · intro hfp
    unfold get_product
    rw [hfp]
  · intro p hfp hfc
    unfold get_product
    rw [hfp]
    simp [hfc]
  · intro p c hfp hfc
    unfold get_product
    rw [hfp]
    simp [hfc]

theorem C6_get_product_cases_witness :
    get_product
      { products := [{ id := 1, name := "p", description := "", price := 4,
                       stock := 2, category_id := 9, seller_id := 7,
                       is_active := true }],
        categories := [{ id := 9, name := "c", is_active := false }] }
      1 =
    Except.error Err.CategoryNotFound := by
  have h := C6_get_product_cases
    { products := [{ id := 1, name := "p", description := "", price := 4,
                     stock := 2, category_id := 9, seller_id := 7,
                     is_active := true }],
      categories := [{ id := 9, name := "c", is_active := false }] }
    1
  exact h.2.1
    { id := 1, name := "p", description := "", price := 4, stock := 2,
      category_id := 9, seller_id := 7, is_active := true }
    (by decide) (by decide)

/-- Claim C7: Create against a missing or inactive category fails
InvalidCategory with the store unchanged; Create against an active
category appends exactly one new row owned by the acting seller with
is_active true. -/
theorem C7_create_category_check (db : Store) (nid : Int)
    (body : ProductCreate) (u : Int) :
    (find_active_category db body.category_id = none →
      create_product db nid body u =
        (db, Except.error Err.InvalidCategory)) ∧
    (∀ c, find_active_category db body.category_id = some c →
      create_product db nid body u =
        ({ db with products := db.products ++ [newProductFrom nid body u] },
         Except.ok (newProductFrom nid body u)) ∧
      (newProductFrom nid body u).seller_id = u ∧
      (newProductFrom nid body u).is_active = true) := by
  refine ⟨?_, ?_⟩
  · intro hfc
    unfold create_product
    rw [hfc]
  · intro c hfc
    refine ⟨?_, rfl, rfl⟩
    unfold create_product
    rw [hfc]

theorem C7_create_category_check_witness :
    create_product
      { products := [],
        categories := [{ id := 3, name := "c", is_active := false }] }
      1
      { name := "n", description := "", price := 5, stock := 2,
        category_id := 3 }
      7 =
    ({ products := [],
       categories := [{ id := 3, name := "c", is_active := false }] },
     Except.error Err.InvalidCategory) :=
  (C7_create_category_check
    { products := [],
      categories := [{ id := 3, name := "c", is_active := false }] }
    1
    { name := "n", description := "", price := 5, stock := 2,
      category_id := 3 }
    7).1 (by decide)

/-- Claim C1 (divergence witness): the source's min_price filter compares
`price` against `category_id` (source line 40).  On a store whose only
product has price 5 in category 1, the request
`category_id = 1, min_price = 10` returns that product - its price 5 is
below the requested lower bound 10, because the filter actually applied is
`price >= 1` (the category id).  With `category_id` absent the comparison
is against NULL and every row is dropped instead. -/
theorem C1_min_price_bug :
    get_all_products
      { products := [{ id := 1, name := "p", description := "", price := 5,
                       stock := 1, category_id := 1, seller_id := 1,
                       is_active := true }],
        categories := [{ id := 1, name := "c", is_active := true }] }
      { category_id := some 1, min_price := some 10 } =
    Except.ok
      { items := [{ id := 1, name := "p", description := "", price := 5,
                    stock := 1, category_id := 1, seller_id := 1,
                    is_active := true }],
        total := 1, page := 1, page_size := 20 } ∧
    (5 : Int) < 10 :=
  ⟨rfl, by decide⟩

/-- Store for the C2 counterexample: category 1 active, category 2
inactive, one active product in category 1 owned by seller 7; the
invariant holds. -/
def invStore : Store :=
  { products := [{ id := 1, name := "p", description := "", price := 10,
                   stock := 1, category_id := 1, seller_id := 7,
                   is_active := true }],
    categories := [{ id := 1, name := "open", is_active := true },
                   { id := 2, name := "closed", is_active := false }] }

/-- Update payload for the C2 counterexample: moves the product to the
inactive category 2. -/
def invBody : ProductCreate :=
  { name := "p", description := "", price := 10, stock := 1,
    category_id := 2 }

/-- Claim C2 (counterexample): a successful Update CAN leave an active
product referencing an inactive category.  The owner updates product 1,
whose current category 1 is active, with a payload naming the inactive
category 2; the source only checks the product's current category, so the
call succeeds and the invariant is broken afterwards. -/
theorem C2_counterexample :
    activeRefsActive invStore = true ∧
    (update_product invStore 1 invBody 7).2 =
      Except.ok { id := 1, name := "p", description := "", price := 10,
                  stock := 1, category_id := 2, seller_id := 7,
                  is_active := true } ∧
    activeRefsActive (update_product invStore 1 invBody 7).1 = false :=
  ⟨rfl, rfl, rfl⟩

/-- Claim C8: when a SoftDelete call succeeds, the returned row has
is_active false, and repeating the same call on the resulting store fails
ProductNotFound (the row is no longer active), leaving the store as it
was - never a duplicate success. -/
theorem C8_soft_delete_twice (db db1 : Store) (pid u : Int) (p1 : Product)
    (h : delete_product db pid u = (db1, Except.ok p1)) :
    p1.is_active = false ∧
    delete_product db1 pid u = (db1, Except.error Err.ProductNotFound) := by
  unfold delete_product at h
  cases hfp : find_active_product db pid with
  | none =>
    rw [hfp] at h
    simp at h
  | some product =>
    rw [hfp] at h
    by_cases hs : product.seller_id = u
    · simp only [hs, bne_self_eq_false, Bool.false_eq_true, if_false,
        Prod.mk.injEq, Except.ok.injEq] at h
      obtain ⟨hdb1, hp1⟩ := h
      have hnone : find_active_product db1 pid = none := by
        rw [← hdb1]
        unfold find_active_product
        simp only [List.find?_eq_none, List.mem_map]
        rintro x ⟨a, ha, rfl⟩
        by_cases hid : (a.id == pid) = true
        · simp [hid]
        · simp [hid]
      constructor
      · rw [← hp1]
      · unfold delete_product
        rw [hnone]
    · simp [hs] at h

theorem C8_soft_delete_twice_witness :
    ({ id := 1, name := "p", description := "", price := 4, stock := 2,
       category_id := 1, seller_id := 7,
       is_active := false } : Product).is_active = false ∧
    delete_product
      { products := [{ id := 1, name := "p", description := "", price := 4,
                       stock := 2, category_id := 1, seller_id := 7,
                       is_active := false }],
        categories := [{ id := 1, name := "c", is_active := true }] }
      1 7 =
    ({ products := [{ id := 1, name := "p", description := "", price := 4,
                      stock := 2, category_id := 1, seller_id := 7,
                      is_active := false }],
       categories := [{ id := 1, name := "c", is_active := true }] },
     Except.error Err.ProductNotFound) :=
  C8_soft_delete_twice
    { products := [{ id := 1, name := "p", description := "", price := 4,
                     stock := 2, category_id := 1, seller_id := 7,
                     is_active := true }],
      categories := [{ id := 1, name := "c", is_active := true }] }
    { products := [{ id := 1, name := "p", description := "", price := 4,
                     stock := 2, category_id := 1, seller_id := 7,
                     is_active := false }],
      categories := [{ id := 1, name := "c", is_active := true }] }
    1 7
    { id := 1, name := "p", description := "", price := 4, stock := 2,
      category_id := 1, seller_id := 7, is_active := false }
    rfl

/-- Claim C9: a successful SoftDelete leaves the categories table
untouched and rewrites the products table pointwise - the row carrying the
deleted id has only its is_active flag cleared, every other row is
unchanged - and under unique ids the targeted row was active before the
call. -/
theorem C9_soft_delete_frame (db db1 : Store) (pid u : Int) (p1 : Product)
    (hids : (db.products.map Product.id).Nodup)
    (h : delete_product db pid u = (db1, Except.ok p1)) :
    db1.categories = db.categories ∧
    db1.products = db.products.map
      (fun r => if r.id == pid then { r with is_active := false } else r) ∧
    (∀ r ∈ db.products, r.id = pid → r.is_active = true) := by
  unfold delete_product at h
  cases hfp : find_active_product db pid with
  | none =>
    rw [hfp] at h
    simp at h
  | some product =>
    rw [hfp] at h
    by_cases hs : product.seller_id = u
    · simp only [hs, bne_self_eq_false, Bool.false_eq_true, if_false,
        Prod.mk.injEq, Except.ok.injEq] at h
      obtain ⟨hdb1, hp1⟩ := h
      have hmem := List.mem_of_find?_eq_some hfp
      have hpred := List.find?_some hfp
      simp only [Bool.and_eq_true, beq_iff_eq] at hpred
      refine ⟨?_, ?_, ?_⟩
      · rw [← hdb1]
      · rw [← hdb1]
      · intro r hr hrid
        have hrp : r = product :=
          List.inj_on_of_nodup_map hids hr hmem (by rw [hrid, hpred.1])
        rw [hrp]
        exact hpred.2
    · simp [hs] at h

theorem C9_soft_delete_frame_witness :
    ({ products := [{ id := 1, name := "p", description := "", price := 4,
                      stock := 2, category_id := 1, seller_id := 7,
                      is_active := false }],
       categories := [{ id := 1, name := "c",
                        is_active := true }] } : Store).categories =
      ({ products := [{ id := 1, name := "p", description := "", price := 4,
                        stock := 2, category_id := 1, seller_id := 7,
                        is_active := true }],
         categories := [{ id := 1, name := "c",
                          is_active := true }] } : Store).categories ∧
    ({ products := [{ id := 1, name := "p", description := "", price := 4,
                      stock := 2, category_id := 1, seller_id := 7,
                      is_active := false }],
       categories := [{ id := 1, name := "c",
                        is_active := true }] } : Store).products =
      ({ products := [{ id := 1, name := "p", description := "", price := 4,
                        stock := 2, category_id := 1, seller_id := 7,
                        is_active := true }],
         categories := [{ id := 1, name := "c",
                          is_active := true }] } : Store).products.map
        (fun r => if r.id == 1 then { r with is_active := false } else r) ∧
    (∀ r ∈ ({ products := [{ id := 1, name := "p", description := "",
                             price := 4, stock := 2, category_id := 1,
                             seller_id := 7, is_active := true }],
              categories := [{ id := 1, name := "c",
                               is_active := true }] } : Store).products,
       r.id = 1 → r.is_active = true) :=
  C9_soft_delete_frame
    { products := [{ id := 1, name := "p", description := "", price := 4,
                     stock := 2, category_id := 1, seller_id := 7,
                     is_active := true }],
      categories := [{ id := 1, name := "c", is_active := true }] }
    { products := [{ id := 1, name := "p", description := "", price := 4,
                     stock := 2, category_id := 1, seller_id := 7,
                     is_active := false }],
      categories := [{ id := 1, name := "c", is_active := true }] }
    1 7
    { id := 1, name := "p", description := "", price := 4, stock := 2,
      category_id := 1, seller_id := 7, is_active := false }
    (by decide) rfl

theorem categoryActive_of_find {db : Store} {cid : Int} {c : Category}
    (h : find_active_category db cid = some c) :
    categoryActive db.categories cid = true := by
  unfold find_active_category at h
  have hmem := List.mem_of_find?_eq_some h
  have hpred := List.find?_some h
  unfold categoryActive
  rw [List.any_eq_true]
  exact ⟨c, hmem, hpred⟩

/-- Claim C2 (amended): starting from a store satisfying the invariant
(every active product references an active category), Create and
SoftDelete always preserve it, and Update preserves it provided the
payload's category_id references an active category.  As stated the claim
is false - `update_product` validates the product's CURRENT category and
then writes the payload's category_id unchecked (see the
counterexample). -/
theorem C2_invariant_preservation (db : Store)
    (h : activeRefsActive db = true) :
    (∀ nid body u, activeRefsActive (create_product db nid body u).1 = true) ∧
    (∀ pid body u, categoryActive db.categories body.category_id = true →
      activeRefsActive (update_product db pid body u).1 = true) ∧
    (∀ pid u, activeRefsActive (delete_product db pid u).1 = true) := by
  unfold activeRefsActive at h
  rw [List.all_eq_true] at h
  refine ⟨?_, ?_, ?_⟩
  · intro nid body u
    unfold create_product
    cases hfc : find_active_category db body.category_id with
    | none =>
      show db.products.all (prodOK db.categories) = true
      rw [List.all_eq_true]
      exact h
    | some c =>
      show (db.products ++ [newProductFrom nid body u]).all
        (prodOK db.categories) = true
      rw [List.all_eq_true]
      intro p hp
      rw [List.mem_append] at hp
      rcases hp with hp | hp
      · exact h p hp
      · rw [List.mem_singleton] at hp
        subst hp
        unfold prodOK newProductFrom
        simp only [Bool.not_true, Bool.false_or]
        exact categoryActive_of_find hfc
  · intro pid body u hcat
    unfold update_product
    cases hfp : find_active_product db pid with
    | none =>
      show db.products.all (prodOK db.categories) = true
      rw [List.all_eq_true]
      exact h
    | some product =>
      by_cases hs : product.seller_id = u
      · simp only [hs, bne_self_eq_false, Bool.false_eq_true, if_false]
        cases hfc : find_active_category db product.category_id with
        | none =>
          show db.products.all (prodOK db.categories) = true
          rw [List.all_eq_true]
          exact h
        | some c =>
          show ((db.products.map
            (fun r => if r.id == pid then applyUpdate body r else r)).all
              (prodOK db.categories)) = true
          rw [List.all_eq_true]
          intro p hp
          rw [List.mem_map] at hp
          obtain ⟨a, ha, rfl⟩ := hp
          by_cases hid : (a.id == pid) = true
          · rw [if_pos hid]
            unfold prodOK applyUpdate
            by_cases hact : a.is_active = true
            · simp only [hact, Bool.not_true, Bool.false_or]
              exact hcat
            · rw [Bool.not_eq_true] at hact
              simp [hact]
          · rw [if_neg hid]
            exact h a ha
      · have hb : (product.seller_id != u) = true := by
          simpa [bne_iff_ne] using hs
        simp only [if_pos hb]
        show db.products.all (prodOK db.categories) = true
        rw [List.all_eq_true]
        exact h
  · intro pid u
    unfold delete_product
    cases hfp : find_active_product db pid with
    | none =>
      show db.products.all (prodOK db.categories) = true
      rw [List.all_eq_true]
      exact h
    | some product =>
      by_cases hs : product.seller_id = u
      · simp only [hs, bne_self_eq_false, Bool.false_eq_true, if_false]
        show ((db.products.map
          (fun r => if r.id == pid then { r with is_active := false }
                    else r)).all (prodOK db.categories)) = true
        rw [List.all_eq_true]
        intro p hp
        rw [List.mem_map] at hp
        obtain ⟨a, ha, rfl⟩ := hp
        by_cases hid : (a.id == pid) = true
        · rw [if_pos hid]
          simp [prodOK]
        · rw [if_neg hid]
          exact h a ha
      · have hb : (product.seller_id != u) = true := by
          simpa [bne_iff_ne] using hs
        simp only [if_pos hb]
        show db.products.all (prodOK db.categories) = true
        rw [List.all_eq_true]
        exact h

theorem C2_invariant_preservation_witness :
    activeRefsActive (update_product invStore 1
      { name := "p", description := "", price := 10, stock := 1,
        category_id := 1 } 7).1 = true :=
  (C2_invariant_preservation invStore (by decide)).2.1 1
    { name := "p", description := "", price := 10, stock := 1,
      category_id := 1 } 7 (by decide)

/-- Claim C3: for valid pagination parameters, a successful List returns
at most page_size items, ordered by ascending id, none of them inactive;
the reported total is the number of active rows passing the constructed
filter predicate, an expression independent of the pagination window, and
any other window over the unchanged store reports the same total. -/
theorem C3_pagination (db : Store) (q : ListQueryParams) (res : ProductList)
    (hpage : 1 ≤ q.page) (hsize1 : 1 ≤ q.page_size)
    (hsize2 : q.page_size ≤ 100)
    (hok : get_all_products db q = Except.ok res) :
    (res.items.length : Int) ≤ q.page_size ∧
    res.items.Pairwise idLE ∧
    (∀ p ∈ res.items, p.is_active = true) ∧
    res.total = (db.products.filter (productFilter q)).length ∧
    (∀ page2 size2 res2,
      get_all_products db { q with page := page2, page_size := size2 } =
        Except.ok res2 → res2.total = res.total) := by
  unfold get_all_products at hok
  by_cases hm : minGtMax q = true
  · rw [if_pos hm] at hok
    simp at hok
  · rw [if_neg hm] at hok
    injection hok with hok
    subst hok
    have hsub : (((sortById (db.products.filter (productFilter q))).drop
        ((q.page - 1) * q.page_size).toNat).take q.page_size.toNat).Sublist
        (sortById (db.products.filter (productFilter q))) :=
      (List.take_sublist _ _).trans (List.drop_sublist _ _)
    refine ⟨?_, ?_, ?_, rfl, ?_⟩
    · have hlen := List.length_take_le q.page_size.toNat
        ((sortById (db.products.filter (productFilter q))).drop
          ((q.page - 1) * q.page_size).toNat)
      calc ((((sortById (db.products.filter (productFilter q))).drop
            ((q.page - 1) * q.page_size).toNat).take
              q.page_size.toNat).length : Int)
          ≤ (q.page_size.toNat : Int) := by exact_mod_cast hlen
        _ = q.page_size := Int.toNat_of_nonneg (by omega)
    · exact (sortById_pairwise _).sublist hsub
    · intro p hp
      have hp2 : p ∈ sortById (db.products.filter (productFilter q)) :=
        hsub.mem hp
      rw [mem_sortById, List.mem_filter] at hp2
      exact productFilter_is_active hp2.2
    · intro page2 size2 res2 h2
      unfold get_all_products at h2
      have hm2 : minGtMax { q with page := page2, page_size := size2 } =
          minGtMax q := rfl
      have hpf : productFilter { q with page := page2, page_size := size2 } =
          productFilter q := rfl
      rw [hm2, if_neg hm, hpf] at h2
      injection h2 with h2
      subst h2
      rfl

theorem C3_pagination_witness :
    ((0 : Int) ≤ 20) ∧
    List.Pairwise idLE ([] : List Product) ∧
    (∀ p ∈ ([] : List Product), p.is_active = true) ∧
    (0 : Nat) = (List.filter (productFilter {}) ([] : List Product)).length ∧
    (∀ page2 size2 res2,
      get_all_products { products := [], categories := [] }
        { ({} : ListQueryParams) with page := page2, page_size := size2 } =
        Except.ok res2 → res2.total = 0) :=
  C3_pagination { products := [], categories := [] } {}
    { items := [], total := 0, page := 1, page_size := 20 }
    (by decide) (by decide) (by decide) rfl

/-- Claim C10: with pagination parameters omitted the interface fills in
page = 1 and page_size = 20, so a parameterless List returns the first 20
matching rows - with no filters supplied the predicate reduces to
is_active, so these are the first 20 active products by id; a supplied
page below 1 or page_size outside [1, 100] is rejected by the interface
(no parameters reach the handler). -/
theorem C10_interface (db : Store) :
    parseListQuery {} = some {} ∧
    get_all_products db {} =
      Except.ok
        { items :=
            (sortById (db.products.filter (fun p => p.is_active))).take 20,
          total := (db.products.filter (fun p => p.is_active)).length,
          page := 1, page_size := 20 } ∧
    (∀ r : RawListQuery, ∀ k, r.page = some k → k < 1 →
      parseListQuery r = none) ∧
    (∀ r : RawListQuery, ∀ k, r.page_size = some k → (k < 1 ∨ 100 < k) →
      parseListQuery r = none) := by
  have hfilter : db.products.filter (productFilter {}) =
      db.products.filter (fun p => p.is_active) := by
    apply List.filter_congr
    intro p hp
    simp [productFilter]
  refine ⟨rfl, ?_, ?_, ?_⟩
  · unfold get_all_products
    rw [if_neg (by decide)]
    rw [hfilter]
    rfl
  · intro r k hk hlt
    have hg : geOk r.page 1 = false := by
      rw [hk]
      unfold geOk
      rw [decide_eq_false_iff_not]
      omega
    unfold parseListQuery
    rw [hg]
    rfl
  · intro r k hk hbad
    rcases hbad with hlt | hgt
    · have hg : geOk r.page_size 1 = false := by
        rw [hk]
        unfold geOk
        rw [decide_eq_false_iff_not]
        omega
      unfold parseListQuery
      rw [hg]
      simp
    · have hg : leOk r.page_size 100 = false := by
        rw [hk]
        unfold leOk
        rw [decide_eq_false_iff_not]
        omega
      unfold parseListQuery
      rw [hg]
      simp

theorem C10_interface_witness :
    parseListQuery { page := some 0 } = none ∧
    parseListQuery { page_size := some 101 } = none :=
  ⟨(C10_interface { products := [], categories := [] }).2.2.1
      { page := some 0 } 0 rfl (by decide),
   (C10_interface { products := [], categories := [] }).2.2.2
      { page_size := some 101 } 101 rfl (Or.inr (by decide))⟩

end FastapiExam
